import Mathlib

/-!
Verification of the crossboarder marketing-workflow graph nodes.

This file gives a shallow embedding, in Lean 4, of the node functions of
`graph_nodes.py`, of the routing predicate `should_generate_emails`, of the
intent-analysis node, and of the cyclic panel-discussion graph of
`multi-agnet.py`.  Calls to the external language-model completion service
are modelled as universally quantified oracles returning `Except String _`
(`.error e` models the Python call raising an exception, or the JSON output
parser failing, with message `e`).  Python `float` values that the code
compares (match scores, the threshold) are modelled exactly as rationals:
every score literal occurring in the pipeline is a short decimal numeral,
exactly representable, so `ℚ` gives the intended arithmetic without
floating-point rounding.  Python dicts are modelled as insertion-ordered
association lists with last-writer-wins insertion, matching CPython
semantics.
-/

deriving instance DecidableEq for Except

namespace Crossboarder

/-! ## Python dict model: insertion-ordered association lists -/

/-- `d.get(k)` / `d[k]`-style lookup: first (unique) binding of `k`. -/
def pyGet {α : Type} (m : List (String × α)) (k : String) : Option α :=
  (m.find? (fun p => p.1 = k)).map (fun p => p.2)

/-- `d[k] = v`: replace the binding in place if `k` is present, else append
a new binding at the end (CPython dict insertion order). -/
def pyInsert {α : Type} (m : List (String × α)) (k : String) (v : α) :
    List (String × α) :=
  if m.any (fun p => p.1 = k) then
    m.map (fun p => if p.1 = k then (k, v) else p)
  else
    m ++ [(k, v)]

/-- The keys of a dict, in insertion order. -/
def pyKeys {α : Type} (m : List (String × α)) : List String :=
  m.map (fun p => p.1)

/-! ## Python `float(...)` on decimal strings, over `ℚ`

`float(s)` strips surrounding whitespace, accepts an optional sign, digits
with an optional fractional part and an optional decimal exponent, and
raises `ValueError` otherwise (modelled as `none`).  The special literals
`inf`/`nan` and digit-group underscores are not modelled: match scores are
percentage numerals, for which this grammar is exact. -/

def isPyWs (c : Char) : Bool :=
  c = ' ' || c = '\t' || c = '\n' || c = '\r' || c = '\x0b' || c = '\x0c'

/-- `s.strip()`-style trim of the whitespace characters `float` accepts. -/
def pyTrim (l : List Char) : List Char :=
  ((l.dropWhile isPyWs).reverse.dropWhile isPyWs).reverse

def natOfDigits (l : List Char) : ℕ :=
  l.foldl (fun a c => 10 * a + (c.toNat - 48)) 0

/-- Parse an optional exponent suffix (`e`/`E`, optional sign, digits)
applied to the mantissa `m`; `[]` means no exponent. -/
def parseExpPart (m : ℚ) (l : List Char) : Option ℚ :=
  match l with
  | [] => some m
  | c :: r =>
    if c = 'e' || c = 'E' then
      let sg : ℤ × List Char :=
        match r with
        | '+' :: t => (1, t)
        | '-' :: t => (-1, t)
        | t => (1, t)
      let d := sg.2.takeWhile (fun c => c.isDigit)
      let rest := sg.2.dropWhile (fun c => c.isDigit)
      if d = [] || rest ≠ [] then none
      else some (m * (10 : ℚ) ^ (sg.1 * (natOfDigits d : ℤ)))
    else none

/-- Parse an unsigned decimal body: digits, optional `.` and more digits,
optional exponent; at least one digit must appear around the point. -/
def parseBody (l : List Char) : Option ℚ :=
  let d1 := l.takeWhile (fun c => c.isDigit)
  let r1 := l.dropWhile (fun c => c.isDigit)
  match r1 with
  | '.' :: r2 =>
    let d2 := r2.takeWhile (fun c => c.isDigit)
    let r3 := r2.dropWhile (fun c => c.isDigit)
    if d1 = [] && d2 = [] then none
    else parseExpPart ((natOfDigits (d1 ++ d2) : ℚ) / (10 : ℚ) ^ d2.length) r3
  | _ =>
    if d1 = [] then none
    else parseExpPart (natOfDigits d1 : ℚ) r1

/-- Model of Python `float(s)` for decimal numerals, as an exact rational. -/
def pyFloat (s : String) : Option ℚ :=
  match pyTrim s.data with
  | '+' :: r => parseBody r
  | '-' :: r => (parseBody r).map (fun q => -q)
  | l => parseBody l

/-! ## Score parsing: the code's algorithm and the claim's algorithm -/

/-- `score_str.replace("%", "")`: removes every `%` character. -/
def removePercent (s : String) : String :=
  String.mk (s.data.filter (fun c => c ≠ '%'))

/-- The Filter node's score parse, from `filter_matches_node`
(graph_nodes.py line 298): `float(score_str.replace("%", ""))`. -/
def parseScore (s : String) : Option ℚ :=
  pyFloat (removePercent s)

/-- The score parse as the spec and claim C1 word it: strip surrounding
whitespace and ONE trailing `%` (if present), then convert.  Declared for
comparison with `parseScore`; it is not what the code does. -/
def specParseScore (s : String) : Option ℚ :=
  let t := pyTrim s.data
  let t2 := if t.getLast? = some '%' then t.dropLast else t
  pyFloat (String.mk t2)

/-! ## Data model (graph_state.py) -/

/-- `MatchResult` (graph_state.py): one scored product/influencer match. -/
structure MatchResult where
  influencerId : String
  influencerName : String
  match_score : String
  match_rationale : String
deriving DecidableEq

/-- `PlatformAnalysisResult` (graph_state.py): per-platform analysis. -/
structure PlatformAnalysisResult where
  audienceGender : String
  audienceAge : String
  regionCountry : String
  language : String
  contentFormat : List String
  recentContentSummary : String
  videoStyle : String
  contentTone : String
  categoryDepth : String
  promotionAbility : String
  brandRepetitionRate : String
  contentScene : List String
  platform : String
deriving DecidableEq

/-- `InfluencerProfile` (graph_state.py): synthesized influencer profile. -/
structure InfluencerProfile where
  coreContentDirection : List String
  overallPersonaAndStyle : String
  mainAudience : String
  commercialDegree : String
  crossPlatformConsist : String
  potentialBrandType : List String
  influencerEval : String
  goodsCarryRating : String
deriving DecidableEq

/-- `ProductTags` (graph_state.py): derived product tag categories. -/
structure ProductTags where
  FeatureTags : List String
  AudienceTags : List String
  UsageScenarioTags : List String
  coreContentDirection : Option (List String)
  overallPersonaAndStyle : Option String
  mainAudience : Option String
deriving DecidableEq

/-- `GeneratedEmail` (graph_state.py): one composed outreach email. -/
structure GeneratedEmail where
  influencerId : String
  influencerName : String
  email_subject : String
  email_body : String
deriving DecidableEq

/-- `PlatformContentData` (graph_state.py): one content item of a platform.
All fields are optional, as in the source. -/
structure PlatformContentData where
  content_title : Option String
  promo_category : Option String
  enhanced_tag : Option String
  cover_image_url : Option String
  content_url : Option String
  like_count : Option Int
  comment_count : Option Int
  publish_date : Option String
deriving DecidableEq

/-- One element of `influencer_data`: a plain dict in the source, read with
`.get("influencerId", "UnknownId")` etc., so the id and name keys may be
absent (`none`).  `platforms` maps platform name to its content list. -/
structure InfluencerEntry where
  influencerId : Option String
  influencerName : Option String
  platforms : List (String × List PlatformContentData)
deriving DecidableEq

/-- `influencer_dict.get("influencerId", "UnknownId")`. -/
def InfluencerEntry.idD (e : InfluencerEntry) : String :=
  e.influencerId.getD "UnknownId"

/-- `influencer_dict.get("influencerName", "UnknownName")`. -/
def InfluencerEntry.nameD (e : InfluencerEntry) : String :=
  e.influencerName.getD "UnknownName"

/-- `MarketingWorkFlowState` (graph_state.py).  `Optional` fields are
`Option`; `product_info` is an opaque string-valued dict (its values are
only ever serialized into prompts). -/
structure MarketingWorkFlowState where
  product_info : Option (List (String × String))
  influencer_data : Option (List InfluencerEntry)
  product_tags : Option ProductTags
  platform_analysis : Option (List (String × List (String × PlatformAnalysisResult)))
  influencer_profiles : Option (List (String × InfluencerProfile))
  match_results : Option (List MatchResult)
  selected_influencers : Option (List MatchResult)
  generated_emails : Option (List GeneratedEmail)
  error_messages : List String
  match_threshold : ℚ
deriving DecidableEq

/-! ## Filter node (graph_nodes.py, `filter_matches_node`, lines 284-307) -/

/-- The partial update returned by `filter_matches_node`: the dict
`{"selected_influencers": ..., "error_messages": ...}`. -/
structure FilterUpdate where
  selected_influencers : Option (List MatchResult)
  error_messages : List String
deriving DecidableEq

/-- Error entry appended when a score string fails to parse
(graph_nodes.py line 303). -/
def scoreErrMsg (r : MatchResult) : String :=
  s!"Invalid match score format for influencer {r.influencerId}: {r.match_score}"

/-- Loop body of the filter: keep the result iff its parsed score is
`>= threshold`; on parse failure append one error and continue. -/
def filterStep (th : ℚ) (acc : List MatchResult × List String)
    (r : MatchResult) : List MatchResult × List String :=
  match parseScore r.match_score with
  | some v => if th ≤ v then (acc.1 ++ [r], acc.2) else acc
  | none => (acc.1, acc.2 ++ [scoreErrMsg r])

/-- `filter_matches_node` (graph_nodes.py lines 284-307).  An absent or
empty `match_results` short-circuits (`if not match_results_list`). -/
def filter_matches_node (st : MarketingWorkFlowState) : FilterUpdate :=
  match st.match_results with
  | none => ⟨some [], st.error_messages⟩
  | some [] => ⟨some [], st.error_messages⟩
  | some l =>
    let out := l.foldl (filterStep st.match_threshold) ([], st.error_messages)
    ⟨some out.1, out.2⟩

/-- Decision the code effectively applies to one match result: parse with
`parseScore`, keep iff the score is at or above the threshold. -/
def scoreKeep (th : ℚ) (r : MatchResult) : Bool :=
  match parseScore r.match_score with
  | some v => decide (th ≤ v)
  | none => false

/-- One error entry per unparseable score, in traversal order. -/
def scoreErr (r : MatchResult) : Option String :=
  match parseScore r.match_score with
  | some _ => none
  | none => some (scoreErrMsg r)

/-- Decision claim C1 words: parse with `specParseScore` (one trailing `%`
stripped), keep iff at or above threshold. -/
def specScoreKeep (th : ℚ) (r : MatchResult) : Bool :=
  match specParseScore r.match_score with
  | some v => decide (th ≤ v)
  | none => false

/-- Concrete match results used in witnesses and counterexamples. -/
def resA : MatchResult := ⟨"a", "Alice", "88%", "strong fit"⟩

def resB : MatchResult := ⟨"b", "Bob", "60%", "weak fit"⟩

def resBad : MatchResult := ⟨"c", "Cara", "abc", "no score"⟩

def resTie : MatchResult := ⟨"d", "Dana", "75", "borderline"⟩

def resPct : MatchResult := ⟨"e", "Eve", "%88", "leading percent"⟩

/-- A baseline state with the listed match results and threshold 75. -/
def mkFilterState (l : List MatchResult) : MarketingWorkFlowState :=
  { product_info := none
    influencer_data := none
    product_tags := none
    platform_analysis := none
    influencer_profiles := none
    match_results := some l
    selected_influencers := none
    generated_emails := none
    error_messages := []
    match_threshold := 75 }

/-! ## PlatformAnalyzer node
(graph_nodes.py, `analyze_influencers_platforms_node`, lines 113-156) -/

/-- One completion call of the platform chain: the prompt receives the
influencer name, the platform name and the serialized content list. -/
abbrev PlatformCall := String × String × List PlatformContentData

/-- Oracle for the platform-analysis chain: `.error e` models the chain
raising (transport error or malformed/unparseable output). -/
abbrev PlatformOracle :=
  String → String → List PlatformContentData → Except String PlatformAnalysisResult

/-- The partial update returned by `analyze_influencers_platforms_node`:
`{"platform_analysis": ..., "error_messages": ...}`. -/
structure PlatformUpdate where
  platform_analysis : List (String × List (String × PlatformAnalysisResult))
  error_messages : List String
deriving DecidableEq

/-- Error entry appended when one (influencer, platform) call fails
(graph_nodes.py line 151). -/
def platformErrMsg (name platform e : String) : String :=
  s!"Platform analysis error for {name} - {platform}: {e}"

/-- Inner loop body over one influencer's platforms: an empty content list
is skipped (no call, no error); otherwise the chain is invoked and a
failure appends one scoped error.  The accumulator is (sub-map, errors,
calls made so far). -/
def platformInner (oracle : PlatformOracle) (name : String)
    (acc : List (String × PlatformAnalysisResult) × List String × List PlatformCall)
    (p : String × List PlatformContentData) :
    List (String × PlatformAnalysisResult) × List String × List PlatformCall :=
  if p.2 = [] then acc
  else
    match oracle name p.1 p.2 with
    | .ok r => (pyInsert acc.1 p.1 r, acc.2.1, acc.2.2 ++ [(name, p.1, p.2)])
    | .error e =>
      (acc.1, acc.2.1 ++ [platformErrMsg name p.1 e], acc.2.2 ++ [(name, p.1, p.2)])

/-- Outer loop body over influencers: analyze all platforms of one entry,
then assign the (possibly empty) sub-map under the influencer's id
(`all_platform_analysis_results[influencer_id] = ...`, line 153). -/
def platformOuter (oracle : PlatformOracle)
    (acc : List (String × List (String × PlatformAnalysisResult)) × List String × List PlatformCall)
    (e : InfluencerEntry) :
    List (String × List (String × PlatformAnalysisResult)) × List String × List PlatformCall :=
  let inner := e.platforms.foldl (platformInner oracle e.nameD) ([], acc.2.1, acc.2.2)
  (pyInsert acc.1 e.idD inner.1, inner.2.1, inner.2.2)

/-- `analyze_influencers_platforms_node` (graph_nodes.py lines 113-156),
instrumented with the list of completion calls it makes.  An absent
`influencer_data` makes the Python code call `len(None)`, a `TypeError`
that escapes the node (modelled as `.error`). -/
def analyze_influencers_platforms_node (oracle : PlatformOracle)
    (st : MarketingWorkFlowState) :
    Except String (PlatformUpdate × List PlatformCall) :=
  match st.influencer_data with
  | none => .error "TypeError: object of type NoneType has no len"
  | some entries =>
    let out := entries.foldl (platformOuter oracle) ([], st.error_messages, [])
    .ok (⟨out.1, out.2.1⟩, out.2.2)

/-- The sub-map the node builds for one influencer, in isolation: each
platform with non-empty content contributes its analysis iff its call
succeeded. -/
def platformSubmap (oracle : PlatformOracle) (e : InfluencerEntry) :
    List (String × PlatformAnalysisResult) :=
  e.platforms.foldl
    (fun m p =>
      if p.2 = [] then m
      else
        match oracle e.nameD p.1 p.2 with
        | .ok r => pyInsert m p.1 r
        | .error _ => m)
    []

/-- The errors one influencer's fan-out contributes, in isolation: exactly
one scoped entry per failing non-empty platform, in platform order. -/
def platformErrorsOf (oracle : PlatformOracle) (e : InfluencerEntry) : List String :=
  e.platforms.filterMap
    (fun p =>
      if p.2 = [] then none
      else
        match oracle e.nameD p.1 p.2 with
        | .ok _ => none
        | .error err => some (platformErrMsg e.nameD p.1 err))

/-- The completion calls one influencer contributes: one per platform with
non-empty content (empty platforms are never called). -/
def platformCallsOf (e : InfluencerEntry) : List PlatformCall :=
  (e.platforms.filter (fun p => decide (p.2 ≠ []))).map (fun p => (e.nameD, p.1, p.2))

/-- Insertion-order deduplication of a key list, as a Python dict built by
repeated assignment produces. -/
def dedupKeys (l : List String) : List String :=
  l.foldl (fun acc k => if k ∈ acc then acc else acc ++ [k]) []

/-! ## ProfileBuilder node
(graph_nodes.py, `generate_influencer_profiles_node`, lines 158-202) -/

/-- Oracle for the profile chain: receives the influencer id, the resolved
name and the per-platform analysis list (`details.values()`). -/
abbrev ProfileOracle :=
  String → String → List PlatformAnalysisResult → Except String InfluencerProfile

/-- The partial update returned by `generate_influencer_profiles_node`. -/
structure ProfileUpdate where
  influencer_profiles : List (String × InfluencerProfile)
  error_messages : List String
deriving DecidableEq

/-- The id-to-name dict comprehension of graph_nodes.py line 172. -/
def nameMapOf (entries : List InfluencerEntry) : List (String × String) :=
  entries.foldl (fun m e => pyInsert m e.idD e.nameD) []

/-- `generate_influencer_profiles_node` (graph_nodes.py lines 158-202).
A falsy `platform_analysis` (absent or empty) short-circuits with one
error; an influencer whose sub-map is empty is skipped with an error and
omitted from the profiles map; per-influencer chain failures are isolated. -/
def generate_influencer_profiles_node (oracle : ProfileOracle)
    (st : MarketingWorkFlowState) : Except String ProfileUpdate :=
  match st.platform_analysis with
  | none =>
    .ok ⟨[], st.error_messages ++
      ["Cannot generate profiles: No platform analysis data available."]⟩
  | some [] =>
    .ok ⟨[], st.error_messages ++
      ["Cannot generate profiles: No platform analysis data available."]⟩
  | some pam =>
    match st.influencer_data with
    | none => .error "TypeError: influencer_data is not iterable"
    | some entries =>
      let nm := nameMapOf entries
      let out := pam.foldl
        (fun (acc : List (String × InfluencerProfile) × List String) p =>
          let name := (pyGet nm p.1).getD s!"Unknown ID: {p.1}"
          if p.2 = [] then
            (acc.1, acc.2 ++ [s!"No platform data to generate profile for {name}."])
          else
            match oracle p.1 name (p.2.map (fun q => q.2)) with
            | .ok prof => (pyInsert acc.1 p.1 prof, acc.2)
            | .error e =>
              (acc.1, acc.2 ++ [s!"Profile generation error for {name}: {e}"]))
        ([], st.error_messages)
      .ok ⟨out.1, out.2⟩

/-! ## Matcher node
(graph_nodes.py, `match_influencers_node`, lines 206-282) -/

/-- A raw item of the matcher's JSON list response: each of the four
`MatchResult` fields may be missing. -/
structure RawMatchItem where
  itemInfluencerId : Option String
  itemInfluencerName : Option String
  itemMatchScore : Option String
  itemMatchRationale : Option String
deriving DecidableEq

/-- The matcher chain's parsed response: either a JSON list of raw items
or some non-list value. -/
inductive MatcherResp where
  | jlist (items : List RawMatchItem)
  | other
deriving DecidableEq

/-- One profile entry as placed in the matcher prompt: the profile dict
augmented with `influencerId` and the display name resolved from
`influencer_data` (graph_nodes.py lines 242-249). -/
abbrev MatcherCandidate := InfluencerProfile × String × String

/-- Oracle for the single batched matcher call: receives the product dict,
the product tags merged into it, and the candidate list. -/
abbrev MatcherOracle :=
  List (String × String) → ProductTags → List MatcherCandidate →
    Except String MatcherResp

/-- The partial update returned by `match_influencers_node`. -/
structure MatchUpdate where
  match_results : List MatchResult
  error_messages : List String
deriving DecidableEq

/-- `MatchResult(**item_dict)` validation: succeeds iff all four required
fields are present (pydantic drops nothing silently; a missing field
raises a validation error, caught per item). -/
def validMatchItem (it : RawMatchItem) : Option MatchResult :=
  match it.itemInfluencerId, it.itemInfluencerName,
      it.itemMatchScore, it.itemMatchRationale with
  | some i, some n, some s, some r => some ⟨i, n, s, r⟩
  | _, _, _, _ => none

/-- Rendering of a raw item for the invalid-format error message
(abbreviates Python's exact dict repr; the error cites the item's fields). -/
def matchItemRepr (it : RawMatchItem) : String :=
  let f := fun (k : String) (v : Option String) =>
    match v with
    | some s => [k ++ ": " ++ s]
    | none => []
  "\x7b" ++ String.intercalate ", "
      (f "influencerId" it.itemInfluencerId ++
        f "influencerName" it.itemInfluencerName ++
        f "match_score" it.itemMatchScore ++
        f "match_rationale" it.itemMatchRationale) ++ "\x7d"

/-- Error entry for a list item that fails `MatchResult` validation
(graph_nodes.py line 273). -/
def matchItemErrMsg (it : RawMatchItem) : String :=
  s!"Matcher returned an item with invalid format: {matchItemRepr it}"

/-- One error per invalid item, in list order. -/
def matchItemErr (it : RawMatchItem) : Option String :=
  match validMatchItem it with
  | some _ => none
  | none => some (matchItemErrMsg it)

/-- Loop body over the matcher's response items. -/
def matchItemStep (acc : List MatchResult × List String) (it : RawMatchItem) :
    List MatchResult × List String :=
  match validMatchItem it with
  | some m => (acc.1 ++ [m], acc.2)
  | none => (acc.1, acc.2 ++ [matchItemErrMsg it])

/-- Display-name resolution for a profile id: linear scan of
`influencer_data` for the first entry whose `influencerId` equals the id
(graph_nodes.py lines 242-246). -/
def nameFromData (idata : List InfluencerEntry) (id : String) : String :=
  match idata.find? (fun e => e.influencerId = some id) with
  | some e => e.nameD
  | none => "UnknownName"

/-- The candidate list sent to the matcher prompt. -/
def matcherCandidates (idata : List InfluencerEntry)
    (pm : List (String × InfluencerProfile)) : List MatcherCandidate :=
  pm.map (fun p => (p.2, p.1, nameFromData idata p.1))

/-- `match_influencers_node` (graph_nodes.py lines 206-282), instrumented
with the number of completion calls made.  Precondition short-circuits:
absent `product_tags`, then falsy `influencer_profiles`, each appending one
error and returning empty results with no call.  An absent `product_info`
or `influencer_data` past those checks raises in Python (modelled as
`.error`).  A non-list response, and also an empty list (falsy in
`if parsed_match_list_dicts and isinstance(..., list)`), is whole-call
failure with one error; a non-empty list is validated per item. -/
def match_influencers_node (oracle : MatcherOracle)
    (st : MarketingWorkFlowState) : Except String (MatchUpdate × ℕ) :=
  match st.product_tags with
  | none =>
    .ok (⟨[], st.error_messages ++ ["Cannot match: Product tags missing."]⟩, 0)
  | some tags =>
    match st.influencer_profiles with
    | none =>
      .ok (⟨[], st.error_messages ++ ["Cannot match: Influencer profiles missing."]⟩, 0)
    | some [] =>
      .ok (⟨[], st.error_messages ++ ["Cannot match: Influencer profiles missing."]⟩, 0)
    | some pm =>
      match st.product_info with
      | none => .error "AttributeError: NoneType object has no attribute copy"
      | some pi =>
        match st.influencer_data with
        | none => .error "TypeError: NoneType object is not iterable"
        | some idata =>
          let cands := matcherCandidates idata pm
          match cands with
          | [] => .ok (⟨[], st.error_messages⟩, 0)
          | it1 :: rest =>
            match oracle pi tags (it1 :: rest) with
            | .error e =>
              .ok (⟨[], st.error_messages ++ [s!"Matcher error: {e}"]⟩, 1)
            | .ok .other =>
              .ok (⟨[], st.error_messages ++ ["Matcher did not return a valid list."]⟩, 1)
            | .ok (.jlist []) =>
              .ok (⟨[], st.error_messages ++ ["Matcher did not return a valid list."]⟩, 1)
            | .ok (.jlist (i :: items)) =>
              let out := (i :: items).foldl matchItemStep ([], st.error_messages)
              .ok (⟨out.1, out.2⟩, 1)

/-! ## EmailComposer node
(graph_nodes.py, `generate_emails_node`, lines 309-375) -/

/-- The email chain's parsed response: a JSON dict (string-valued entries)
or some non-dict value. -/
inductive EmailResp where
  | jdict (entries : List (String × String))
  | other
deriving DecidableEq

/-- Oracle for the per-influencer email chain: receives the product dict,
the optional tags merged into it, and the profile augmented with the
influencer's name and id. -/
abbrev EmailOracle :=
  List (String × String) → Option ProductTags → InfluencerProfile →
    String → String → Except String EmailResp

/-- The partial update returned by `generate_emails_node`. -/
structure EmailUpdate where
  generated_emails : List GeneratedEmail
  error_messages : List String
deriving DecidableEq

/-- Error entry for a selected influencer whose profile is absent
(graph_nodes.py line 341). -/
def profileMissingMsg (name : String) : String :=
  s!"Profile missing for selected influencer {name}."

/-- Per-influencer processing of the email loop body, in isolation:
the email produced, if any. -/
def emailItemResult (oracle : EmailOracle) (pi : List (String × String))
    (tags : Option ProductTags) (pm : List (String × InfluencerProfile))
    (m : MatchResult) : Option GeneratedEmail :=
  match pyGet pm m.influencerId with
  | none => none
  | some prof =>
    match oracle pi tags prof m.influencerName m.influencerId with
    | .error _ => none
    | .ok (.jdict d) =>
      match pyGet d "email_subject", pyGet d "email_body" with
      | some subj, some body => some ⟨m.influencerId, m.influencerName, subj, body⟩
      | _, _ => none
    | .ok .other => none

/-- Per-influencer processing of the email loop body, in isolation:
the errors appended for this influencer. -/
def emailItemErrs (oracle : EmailOracle) (pi : List (String × String))
    (tags : Option ProductTags) (pm : List (String × InfluencerProfile))
    (m : MatchResult) : List String :=
  match pyGet pm m.influencerId with
  | none => [profileMissingMsg m.influencerName]
  | some prof =>
    match oracle pi tags prof m.influencerName m.influencerId with
    | .error e => [s!"Email generation error for {m.influencerName}: {e}"]
    | .ok (.jdict d) =>
      match pyGet d "email_subject", pyGet d "email_body" with
      | some _, some _ => []
      | _, _ => [s!"Email generation failed for {m.influencerName}."]
    | .ok .other => [s!"Email generation failed for {m.influencerName}."]

/-- Loop body of `generate_emails_node` over the selected influencers. -/
def emailStep (oracle : EmailOracle) (pi : List (String × String))
    (tags : Option ProductTags) (pm : List (String × InfluencerProfile))
    (acc : List GeneratedEmail × List String) (m : MatchResult) :
    List GeneratedEmail × List String :=
  (acc.1 ++ (emailItemResult oracle pi tags pm m).toList,
    acc.2 ++ emailItemErrs oracle pi tags pm m)

/-- `generate_emails_node` (graph_nodes.py lines 309-375).  A falsy
`selected_influencers` short-circuits; past that, an absent `product_info`
raises (`None.copy()`) and an absent `influencer_profiles` raises at the
first lookup (`None.get(...)`), both modelled as `.error`.  Each selected
influencer is processed independently: missing profile, chain failure and
missing subject/body keys each append one error and skip only that
influencer. -/
def generate_emails_node (oracle : EmailOracle)
    (st : MarketingWorkFlowState) : Except String EmailUpdate :=
  match st.selected_influencers with
  | none => .ok ⟨[], st.error_messages⟩
  | some [] => .ok ⟨[], st.error_messages⟩
  | some (m1 :: rest) =>
    match st.product_info with
    | none => .error "AttributeError: NoneType object has no attribute copy"
    | some pi =>
      match st.influencer_profiles with
      | none => .error "AttributeError: NoneType object has no attribute get"
      | some pm =>
        let out := (m1 :: rest).foldl
          (emailStep oracle pi st.product_tags pm) ([], st.error_messages)
        .ok ⟨out.1, out.2⟩

/-! ## Conditional edge (graph_nodes.py, `should_generate_emails`,
lines 379-386) and marketing-workflow wiring -/

/-- The reserved terminal routing marker (langgraph's `END`). -/
def ENDMark : String := "__end__"

/-- `should_generate_emails` (graph_nodes.py lines 379-386): route to the
EmailComposer node iff `selected_influencers` is truthy and non-empty,
else to the terminal marker. -/
def should_generate_emails (st : MarketingWorkFlowState) : String :=
  match st.selected_influencers with
  | some (_ :: _) => "generate_emails_node"
  | some [] => ENDMark
  | none => ENDMark

/-- Modelled from the spec: the Executor's merge of a node's partial update
into the running state is field-level overwrite (§4.1); the executor itself
(langgraph) is not part of the repository.  Merge of a PlatformAnalyzer
update. -/
def applyPlatform (st : MarketingWorkFlowState) (u : PlatformUpdate) :
    MarketingWorkFlowState :=
  { st with platform_analysis := some u.platform_analysis
            error_messages := u.error_messages }

/-- Modelled from the spec: field-overwrite merge (§4.1) of a
ProfileBuilder update. -/
def applyProfile (st : MarketingWorkFlowState) (u : ProfileUpdate) :
    MarketingWorkFlowState :=
  { st with influencer_profiles := some u.influencer_profiles
            error_messages := u.error_messages }

/-- Modelled from the spec: field-overwrite merge (§4.1) of a Matcher
update. -/
def applyMatch (st : MarketingWorkFlowState) (u : MatchUpdate) :
    MarketingWorkFlowState :=
  { st with match_results := some u.match_results
            error_messages := u.error_messages }

/-- Modelled from the spec: field-overwrite merge (§4.1) of a Filter
update. -/
def applyFilter (st : MarketingWorkFlowState) (u : FilterUpdate) :
    MarketingWorkFlowState :=
  { st with selected_influencers := u.selected_influencers
            error_messages := u.error_messages }

/-- Modelled from the spec: the marketing graph's linear segment after the
ProductTagger — PlatformAnalyzer, ProfileBuilder, Matcher, Filter in the
edge order wired at graph_nodes.py lines 420-433, each partial update
merged by field overwrite (§4.1); execution stops at the Filter node's
conditional edge. -/
def runMarketingFromPlatform (pO : PlatformOracle) (prO : ProfileOracle)
    (mO : MatcherOracle) (st : MarketingWorkFlowState) :
    Except String MarketingWorkFlowState :=
  match analyze_influencers_platforms_node pO st with
  | .error e => .error e
  | .ok r1 =>
    let st1 := applyPlatform st r1.1
    match generate_influencer_profiles_node prO st1 with
    | .error e => .error e
    | .ok u2 =>
      let st2 := applyProfile st1 u2
      match match_influencers_node mO st2 with
      | .error e => .error e
      | .ok r3 =>
        let st3 := applyMatch st2 r3.1
        .ok (applyFilter st3 (filter_matches_node st3))

/-! ## IntentClassifier node
(graph_nodes.py, `intent_analysis_node`, lines 443-484) -/

/-- `IntentAnalysisState` (graph_state.py): the reply-intent pipeline's
state.  The analysis result is a parsed JSON dict. -/
structure IntentAnalysisState where
  email_subject : Option String
  email_body : String
  analysis_result : Option (List (String × String))
  error_message : Option String
deriving DecidableEq

/-- The partial update returned by `intent_analysis_node`. -/
structure IntentUpdate where
  analysis_result : Option (List (String × String))
  error_message : Option String
deriving DecidableEq

/-- The intent chain's parsed response: a JSON dict, or some non-dict value
(`truthy` records its Python truthiness, `text` its repr, used only in the
invalid-format message). -/
inductive IntentResp where
  | jdict (entries : List (String × String))
  | nondict (truthy : Bool) (text : String)
deriving DecidableEq

/-- Oracle for the intent chain: receives the subject actually sent
(`"N/A"` when absent or empty) and the body. -/
abbrev IntentOracle := String → String → Except String IntentResp

/-- Rendering of a response for the invalid-format message (abbreviates
Python's `str(parsed_result_dict)[:200]`). -/
def intentRespRepr (r : IntentResp) : String :=
  match r with
  | .jdict d => "\x7b" ++ String.intercalate ", " (d.map (fun p => p.1 ++ ": " ++ p.2)) ++ "\x7d"
  | .nondict _ t => t

/-- The invalid-or-incomplete-format error of graph_nodes.py lines 473-475:
the `Got:` suffix is added only when the parsed value is truthy. -/
def intentInvalidMsg (r : IntentResp) : String :=
  let base := "Intent analysis returned invalid or incomplete format."
  match r with
  | .jdict [] => base
  | .jdict d => base ++ s!" Got: {intentRespRepr (.jdict d)}"
  | .nondict true t => base ++ s!" Got: {t}"
  | .nondict false _ => base

/-- `intent_analysis_node` (graph_nodes.py lines 443-484).  An empty body
short-circuits with no call.  A response that is a dict containing the
`cooperation_intent` key succeeds; otherwise the node reports an
invalid-format error.  When the chain RAISES, the handler at line 483
evaluates `traceback.format_exc()` — but `graph_nodes.py` never imports
`traceback` at module level (only inside `analyze_product_node`), so the
handler itself raises `NameError`, which escapes the node: modelled as
`.error`. -/
def intent_analysis_node (oracle : IntentOracle) (st : IntentAnalysisState) :
    Except String IntentUpdate :=
  if st.email_body = "" then
    .ok ⟨none, some "Email body is empty."⟩
  else
    let subj :=
      match st.email_subject with
      | some s => if s = "" then "N/A" else s
      | none => "N/A"
    match oracle subj st.email_body with
    | .ok (.jdict d) =>
      match pyGet d "cooperation_intent" with
      | some _ => .ok ⟨some d, none⟩
      | none => .ok ⟨none, some (intentInvalidMsg (.jdict d))⟩
    | .ok (.nondict b t) => .ok ⟨none, some (intentInvalidMsg (.nondict b t))⟩
    | .error _ => .error "NameError: name traceback is not defined"

/-! ## Panel-discussion graph (multi-agnet.py)

A `MessageGraph` whose shared state is the message list; the module-level
`data` dict is global mutable state threaded alongside.  `hostNode` is
`msgParser | hostChain`; each `playNodeI` is `playMsgParser | playerChains[i]`;
the conditional edge after `hostNode` is `choose`; every player node routes
back to `hostNode`. -/

/-- `data["chatList"]`: initially the string "节目刚开始，暂无聊天内容",
later a list of speaker-tagged lines. -/
inductive ChatList where
  | text (s : String)
  | lines (l : List String)
deriving DecidableEq

/-- The module-level `data` dict of multi-agnet.py lines 154-160.  The
initial dict has the typo key `"plyer"` and no `"player"` key, so `player`
starts absent (`none`); `msgParser` assigns it before `choose` reads it. -/
structure PanelData where
  topic : String
  chatList : ChatList
  roleDesList : String
  plyer : String
  player : Option String
  isEnd : Bool
deriving DecidableEq

/-- `role_List = ["成龙","刘亦菲","沈腾","薛之谦"]` (multi-agnet.py line 48). -/
def role_List : List String := ["成龙", "刘亦菲", "沈腾", "薛之谦"]

/-- The role name at a given index (`random.sample(role_List, k=1)[0]`
returns some such element). -/
def roleOf (i : Fin 4) : String := role_List.get ⟨i.val, i.isLt⟩

/-- `choose` (multi-agnet.py lines 162-176): if the ended flag is already
set, return "end"; otherwise set the flag when the message list is longer
than 5; then route to the player whose name `data["player"]` holds
(first-match over `role_List`), or "end" if it matches no role.  Reading
`data["player"]` before it was ever assigned would raise `KeyError`. -/
def chooseFlag (d : PanelData) (msgCount : ℕ) : PanelData :=
  if msgCount > 5 then { d with isEnd := true } else d

def choose (d : PanelData) (msgCount : ℕ) : Except String (PanelData × String) :=
  if d.isEnd then .ok (d, "end")
  else
    let d2 := chooseFlag d msgCount
    match d2.player with
    | none => .error "KeyError: player"
    | some p =>
      match role_List.findIdx? (fun r => r = p) with
      | some i => .ok (d2, "play" ++ toString (i + 1))
      | none => .ok (d2, "end")

/-- `msgParser` (multi-agnet.py lines 178-188): if the chat list is no
longer a string, append the last player utterance tagged with the current
player's name; then pick the next player — uniformly random over
`role_List` (here: an arbitrary `Fin 4` sequence indexed by host visit)
unless the ended flag is set, in which case a sentinel non-player string. -/
def msgParser (d : PanelData) (messages : List String) (pick : Fin 4) :
    Except String PanelData :=
  let app : Except String PanelData :=
    match d.chatList with
    | .text _ => .ok d
    | .lines l =>
      match messages.getLast? with
      | none => .error "IndexError: list index out of range"
      | some m =>
        match d.player with
        | none => .error "KeyError: player"
        | some p => .ok { d with chatList := .lines (l ++ [s!"嘉宾({p}):{m}"]) }
  match app with
  | .error e => .error e
  | .ok d1 =>
    if d1.isEnd then
      .ok { d1 with player := some "节目结束，不需要下一位嘉宾发言" }
    else
      .ok { d1 with player := some (roleOf pick) }

/-- `playMsgParser` (multi-agnet.py lines 190-196): turn the chat list into
a list seeded with the host's first message, or append the host's latest
message. -/
def playMsgParser (d : PanelData) (messages : List String) :
    Except String PanelData :=
  match d.chatList with
  | .text _ =>
    match messages.head? with
    | none => .error "IndexError: list index out of range"
    | some m => .ok { d with chatList := .lines ["主持人（喵喵）" ++ m] }
  | .lines l =>
    match messages.getLast? with
    | none => .error "IndexError: list index out of range"
    | some m => .ok { d with chatList := .lines (l ++ ["主持人（喵喵）" ++ m]) }

/-- A cursor of the compiled panel graph. -/
inductive PanelNode where
  | host
  | play (i : Fin 4)
  | stop
deriving DecidableEq

/-- The conditional-edge mapping of multi-agnet.py lines 204-209. -/
def panelEdgeMap (s : String) : Option PanelNode :=
  if s = "end" then some .stop
  else if s = "play1" then some (.play 0)
  else if s = "play2" then some (.play 1)
  else if s = "play3" then some (.play 2)
  else if s = "play4" then some (.play 3)
  else none

/-- The full execution state of one panel run: the MessageGraph message
list, the global `data` dict, the cursor, and the number of host visits so
far (used to index the random-pick sequence). -/
structure PanelExec where
  messages : List String
  data : PanelData
  cursor : PanelNode
  hostVisits : ℕ
deriving DecidableEq

/-- Modelled from the spec: one executor step of the compiled MessageGraph
(§4.1 and langgraph semantics): invoke the node at the cursor (its chain
output is appended to the message list), then resolve the outgoing edge —
the conditional `choose` after the host, the unconditional edge back to the
host after a player.  `hostO`/`playO` are the host and player completion
chains; `rand` the random-pick sequence. -/
def panelStep (hostO : PanelData → String)
    (playO : Fin 4 → ChatList × String → String) (rand : ℕ → Fin 4)
    (s : PanelExec) : Except String PanelExec :=
  match s.cursor with
  | .stop => .ok s
  | .host =>
    match msgParser s.data s.messages (rand s.hostVisits) with
    | .error e => .error e
    | .ok d1 =>
      let messages2 := s.messages ++ [hostO d1]
      match choose d1 messages2.length with
      | .error e => .error e
      | .ok (d2, route) =>
        match panelEdgeMap route with
        | none => .error s!"unknown route {route}"
        | some nxt => .ok ⟨messages2, d2, nxt, s.hostVisits + 1⟩
  | .play i =>
    match playMsgParser s.data s.messages with
    | .error e => .error e
    | .ok d1 =>
      .ok ⟨s.messages ++ [playO i (d1.chatList, d1.topic)], d1, .host, s.hostVisits⟩

/-- The initial execution state: `graph.invoke([])` with the initial
`data` dict of multi-agnet.py lines 154-160 (`roleDesList` is the
LLM-generated guest-introduction string, kept abstract). -/
def panelInit (rds : String) : PanelExec :=
  { messages := []
    data :=
      { topic := "哪吒2为啥能大火"
        chatList := .text "节目刚开始，暂无聊天内容"
        roleDesList := rds
        plyer := "成龙"
        player := none
        isEnd := false }
    cursor := .host
    hostVisits := 0 }

/-- `n` executor steps of the panel graph from the initial state. -/
def panelRun (hostO : PanelData → String)
    (playO : Fin 4 → ChatList × String → String) (rand : ℕ → Fin 4)
    (rds : String) : ℕ → Except String PanelExec
  | 0 => .ok (panelInit rds)
  | n + 1 =>
    match panelRun hostO playO rand rds n with
    | .error e => .error e
    | .ok s => panelStep hostO playO rand s

/-- Projection: the ended flag of a (successful) run state. -/
def panelEnded (x : Except String PanelExec) : Option Bool :=
  x.toOption.map (fun s => s.data.isEnd)

/-- Projection: the cursor of a (successful) run state. -/
def panelCursor (x : Except String PanelExec) : Option PanelNode :=
  x.toOption.map (fun s => s.cursor)

/-- Projection: the message count of a (successful) run state. -/
def panelMsgCount (x : Except String PanelExec) : Option ℕ :=
  x.toOption.map (fun s => s.messages.length)

/-! ## Concrete data for witnesses and counterexamples -/

/-- The empty marketing state: no inputs, default threshold 75. -/
def emptyMW : MarketingWorkFlowState :=
  ⟨none, none, none, none, none, none, none, none, [], 75⟩

def sampleContent : PlatformContentData :=
  ⟨some "unboxing video", none, none, none, none, some 10, some 2, none⟩

def sampleAnalysis (platform : String) : PlatformAnalysisResult :=
  ⟨"female", "18-24", "US", "en", ["video"], "tech reviews", "casual",
    "upbeat", "deep", "high", "low", ["home"], platform⟩

def sampleProfile : InfluencerProfile :=
  ⟨["tech"], "friendly expert", "young adults", "high", "consistent",
    ["electronics"], "solid", "A"⟩

def sampleTags : ProductTags :=
  ⟨["compact"], ["students"], ["commute"], none, none, none⟩

/-- C4 witness data: influencer `n1` has one platform with content and one
empty platform; influencer `n2` has one platform with content. -/
def entN1 : InfluencerEntry :=
  ⟨some "n1", some "Nia", [("youtube", [sampleContent]), ("tiktok", [])]⟩

def entN2 : InfluencerEntry :=
  ⟨some "n2", some "Omar", [("instagram", [sampleContent])]⟩

/-- Oracle engineered to fail on exactly one (influencer, platform) pair. -/
def pOracleFailNia : PlatformOracle := fun name platform _ =>
  if name = "Nia" && platform = "youtube" then .error "boom"
  else .ok (sampleAnalysis platform)

/-- Oracle that always succeeds. -/
def pOracleOk : PlatformOracle := fun _ platform _ => .ok (sampleAnalysis platform)

/-- C10 counterexample data: two influencer entries carrying the same id. -/
def entDupA1 : InfluencerEntry := ⟨some "a", some "Ann", []⟩

def entDupA2 : InfluencerEntry :=
  ⟨some "a", some "Ann", [("youtube", [sampleContent])]⟩

/-- Influencer entry matching profile id `p1`. -/
def entP1 : InfluencerEntry := ⟨some "p1", some "Pia", []⟩

/-- C6 data: a raw matcher item with all four fields, and one lacking the
score. -/
def itGood : RawMatchItem := ⟨some "p1", some "Pia", some "88%", some "on brand"⟩

def itNoScore : RawMatchItem := ⟨some "p2", some "Quin", none, some "no score"⟩

/-- A state satisfying the Matcher's preconditions, with one profile. -/
def stMatcher : MarketingWorkFlowState :=
  { emptyMW with
      product_tags := some sampleTags
      product_info := some [("name", "Widget")]
      influencer_data := some [entP1]
      influencer_profiles := some [("p1", sampleProfile)] }

/-- C9 witness state: two selected influencers, a profile for only one. -/
def stEmails : MarketingWorkFlowState :=
  { emptyMW with
      selected_influencers := some [resA, resB]
      product_info := some [("name", "Widget")]
      influencer_profiles := some [("a", sampleProfile)] }

/-- Email oracle that always returns a well-formed subject/body dict. -/
def eOracleOk : EmailOracle := fun _ _ _ _ _ =>
  .ok (.jdict [("email_subject", "Hello"), ("email_body", "Shall we collaborate?")])

/-- C8 witness state: empty influencer data, tags present. -/
def stEmptyData : MarketingWorkFlowState :=
  { emptyMW with
      influencer_data := some []
      product_info := some [("name", "Widget")]
      product_tags := some sampleTags }

/-- Profile oracle that always succeeds. -/
def prOracleOk : ProfileOracle := fun _ _ _ => .ok sampleProfile

/-- Matcher oracle returning an empty JSON list. -/
def mOracleEmptyList : MatcherOracle := fun _ _ _ => .ok (.jlist [])

/-- C3 failing input: a non-empty reply body with a subject. -/
def stIntent : IntentAnalysisState :=
  ⟨some "Re: partnership", "Looking forward to working together", none, none⟩

/-- Intent oracle whose completion call raises (e.g. a transport error). -/
def iOracleRaise : IntentOracle := fun _ _ => .error "APIConnectionError"

/-- Matcher oracle returning a list with one valid and one invalid item. -/
def mOracleItems : MatcherOracle := fun _ _ _ => .ok (.jlist [itGood, itNoScore])

/-- The state of the C7 counterexample: `product_tags` absent AND
`influencer_profiles` empty. -/
def stBothMissing : MarketingWorkFlowState :=
  { emptyMW with influencer_profiles := some [] }

lemma filter_foldl (th : ℚ) (l : List MatchResult)
    (sel : List MatchResult) (errs : List String) :
    l.foldl (filterStep th) (sel, errs) =
      (sel ++ l.filter (scoreKeep th), errs ++ l.filterMap scoreErr) := by
  induction l generalizing sel errs with
  | nil => simp
  | cons r t ih =>
    rw [List.foldl_cons]
    cases h : parseScore r.match_score with
    | some v =>
      by_cases hv : th ≤ v
      · have hs : filterStep th (sel, errs) r = (sel ++ [r], errs) := by
          simp [filterStep, h, hv]
        rw [hs, ih]
        simp [List.filter_cons, List.filterMap_cons, scoreKeep, scoreErr, h, hv]
      · have hs : filterStep th (sel, errs) r = (sel, errs) := by
          simp [filterStep, h, hv]
        rw [hs, ih]
        simp [List.filter_cons, List.filterMap_cons, scoreKeep, scoreErr, h, hv]
    | none =>
      have hs : filterStep th (sel, errs) r = (sel, errs ++ [scoreErrMsg r]) := by
        simp [filterStep, h]
      rw [hs, ih]
      simp [List.filter_cons, List.filterMap_cons, scoreKeep, scoreErr, h]

/-- Characterization of `filter_matches_node` on a present results list:
a stable in-place filter by `scoreKeep`, plus one error per parse failure. -/
lemma filter_matches_node_eq (st : MarketingWorkFlowState)
    (l : List MatchResult) (hl : st.match_results = some l) :
    filter_matches_node st =
      ⟨some (l.filter (scoreKeep st.match_threshold)),
        st.error_messages ++ l.filterMap scoreErr⟩ := by
  cases l with
  | nil => simp [filter_matches_node, hl]
  | cons r t =>
    simp only [filter_matches_node, hl]
    rw [filter_foldl]
    simp

/-- C1 counterexample: on the score string `"%88"` the claimed parse
(strip one trailing `%` and surrounding whitespace) fails, so the claim
predicts that the entry is not selected; the code removes every `%`
character, parses `88 >= 75`, and selects it.  So `selected_influencers`
differs from the subsequence the claim describes. -/
theorem c1_trailing_percent_counterexample :
    (filter_matches_node (mkFilterState [resPct])).selected_influencers ≠
      some (((mkFilterState [resPct]).match_results.getD []).filter
        (specScoreKeep (mkFilterState [resPct]).match_threshold)) := by
  decide

/-- C1 (amended): for every state whose `match_results` list is non-empty,
the Filter node returns `selected_influencers` equal to the subsequence of
`match_results` whose score string — parsed by removing every `%` character
(not just a trailing one), ignoring surrounding whitespace, and converting
to a number — is `>= match_threshold`; the boundary is inclusive (a score
equal to the threshold is kept) and the relative order is exactly the order
of `match_results` (stable in-place filter, no re-sort). -/
theorem c1_filter_selected (st : MarketingWorkFlowState)
    (l : List MatchResult) (hl : st.match_results = some l) (_hne : l ≠ []) :
    (filter_matches_node st).selected_influencers =
        some (l.filter (scoreKeep st.match_threshold)) ∧
      (l.filter (scoreKeep st.match_threshold)).Sublist l ∧
      ∀ r ∈ l, parseScore r.match_score = some st.match_threshold →
        r ∈ l.filter (scoreKeep st.match_threshold) := by
  refine ⟨by rw [filter_matches_node_eq st l hl], l.filter_sublist, ?_⟩
  intro r hr hparse
  refine List.mem_filter.mpr ⟨hr, ?_⟩
  simp [scoreKeep, hparse]

/-- C1 witness: the spec's own end-to-end scenario — threshold 75, scores
`"88%"` and `"60%"` — instantiates the amended theorem, and the selected
list evaluates to exactly the first result. -/
theorem c1_filter_selected_witness :
    ((filter_matches_node (mkFilterState [resA, resB])).selected_influencers =
        some ([resA, resB].filter
          (scoreKeep (mkFilterState [resA, resB]).match_threshold)) ∧
      ([resA, resB].filter
          (scoreKeep (mkFilterState [resA, resB]).match_threshold)).Sublist
        [resA, resB] ∧
      ∀ r ∈ [resA, resB],
        parseScore r.match_score =
            some (mkFilterState [resA, resB]).match_threshold →
          r ∈ [resA, resB].filter
            (scoreKeep (mkFilterState [resA, resB]).match_threshold)) ∧
    (filter_matches_node (mkFilterState [resA, resB])).selected_influencers =
      some [resA] :=
  ⟨c1_filter_selected (mkFilterState [resA, resB]) [resA, resB] rfl
      (by decide),
    by decide⟩

/-- C5: for every match result whose score string fails to parse (after `%`
removal), the entry is dropped from `selected_influencers` and exactly one
error is appended, citing the offending influencer id and the raw score
string; filtering of the remaining results is unaffected (the selected list
is still the full stable filter of the list), and a score string with no
trailing `%`, such as `"75"`, still parses (the `%` is optional). -/
theorem c5_filter_parse_failure_isolated (st : MarketingWorkFlowState)
    (l : List MatchResult) (hl : st.match_results = some l) :
    (filter_matches_node st).selected_influencers =
        some (l.filter (scoreKeep st.match_threshold)) ∧
      (filter_matches_node st).error_messages =
        st.error_messages ++ l.filterMap scoreErr ∧
      (∀ r ∈ l, parseScore r.match_score = none →
        r ∉ l.filter (scoreKeep st.match_threshold) ∧
          scoreErr r = some (scoreErrMsg r)) ∧
      parseScore "75" = some 75 := by
  rw [filter_matches_node_eq st l hl]
  refine ⟨rfl, rfl, ?_, by decide⟩
  intro r hr hparse
  refine ⟨fun hmem => ?_, by simp [scoreErr, hparse]⟩
  have := (List.mem_filter.mp hmem).2
  simp [scoreKeep, hparse] at this

/-- C5 witness: threshold 75 with scores `"88%"`, `"abc"`, `"75"`: the
malformed entry contributes exactly one error naming influencer `c` and raw
string `abc`; the valid entries (including the `%`-less tie `"75"`) are
selected, in order. -/
theorem c5_filter_parse_failure_isolated_witness :
    ((filter_matches_node (mkFilterState [resA, resBad, resTie])).selected_influencers =
        some ([resA, resBad, resTie].filter
          (scoreKeep (mkFilterState [resA, resBad, resTie]).match_threshold)) ∧
      (filter_matches_node (mkFilterState [resA, resBad, resTie])).error_messages =
        (mkFilterState [resA, resBad, resTie]).error_messages ++
          [resA, resBad, resTie].filterMap scoreErr ∧
      (∀ r ∈ [resA, resBad, resTie], parseScore r.match_score = none →
        r ∉ [resA, resBad, resTie].filter
            (scoreKeep (mkFilterState [resA, resBad, resTie]).match_threshold) ∧
          scoreErr r = some (scoreErrMsg r)) ∧
      parseScore "75" = some 75) ∧
    (filter_matches_node (mkFilterState [resA, resBad, resTie])).selected_influencers =
        some [resA, resTie] ∧
    (filter_matches_node (mkFilterState [resA, resBad, resTie])).error_messages =
      ["Invalid match score format for influencer c: abc"] :=
  ⟨c5_filter_parse_failure_isolated (mkFilterState [resA, resBad, resTie])
      [resA, resBad, resTie] rfl,
    by decide, by decide⟩

/-- C3: the claim says missing-precondition, external-call and validation
failures are always recovered locally inside each node; `intent_analysis_node`
violates it.  On a state with a non-empty body, when the completion call
raises, the `except` handler at graph_nodes.py line 483 evaluates
`traceback.format_exc()` with `traceback` never imported, so the handler
itself raises `NameError`, which escapes the node (and hence the graph run)
instead of being converted to an `error_message`. -/
theorem c3_intent_exception_escapes_node :
    intent_analysis_node iOracleRaise stIntent =
      .error "NameError: name traceback is not defined" := by
  decide

/-- C7 counterexample: on a state where `product_tags` is absent AND
`influencer_profiles` is empty, the node appends only the product-tags
error; the influencer-profiles-missing error the claim promises for every
state with empty profiles is not appended. -/
theorem c7_both_missing_counterexample :
    stBothMissing.influencer_profiles = some [] ∧
    match_influencers_node mOracleEmptyList stBothMissing =
      .ok (⟨[], ["Cannot match: Product tags missing."]⟩, 0) ∧
    "Cannot match: Influencer profiles missing." ∉
      (["Cannot match: Product tags missing."] : List String) := by
  refine ⟨rfl, by decide, by decide⟩

/-- C7 (amended): the Matcher's hard preconditions short-circuit it without
being fatal: for every state where `product_tags` is absent it appends the
product-tags-missing error and returns empty `match_results`, and for every
state where `product_tags` is present and `influencer_profiles` is absent
or empty it appends the influencer-profiles-missing error and returns empty
`match_results`; in both cases no completion call is made (call count 0).
The two checks are sequential, tags first. -/
theorem c7_matcher_preconditions (oracle : MatcherOracle)
    (st : MarketingWorkFlowState) :
    (st.product_tags = none →
      match_influencers_node oracle st =
        .ok (⟨[], st.error_messages ++ ["Cannot match: Product tags missing."]⟩, 0)) ∧
    (∀ t, st.product_tags = some t →
      st.influencer_profiles = none ∨ st.influencer_profiles = some [] →
      match_influencers_node oracle st =
        .ok (⟨[], st.error_messages ++ ["Cannot match: Influencer profiles missing."]⟩, 0)) := by
  constructor
  · intro h
    simp [match_influencers_node, h]
  · intro t ht h
    rcases h with h | h <;> simp [match_influencers_node, ht, h]

/-- C7 witness: concrete states exercising both preconditions; each returns
empty results, the scoped error, and makes zero completion calls. -/
theorem c7_matcher_preconditions_witness :
    match_influencers_node mOracleEmptyList emptyMW =
      .ok (⟨[], emptyMW.error_messages ++ ["Cannot match: Product tags missing."]⟩, 0) ∧
    match_influencers_node mOracleEmptyList
        { stMatcher with influencer_profiles := some [] } =
      .ok (⟨[], { stMatcher with influencer_profiles := some [] }.error_messages ++
        ["Cannot match: Influencer profiles missing."]⟩, 0) :=
  ⟨(c7_matcher_preconditions mOracleEmptyList emptyMW).1 rfl,
    (c7_matcher_preconditions mOracleEmptyList
      { stMatcher with influencer_profiles := some [] }).2 sampleTags rfl (Or.inr rfl)⟩

/-- C8: the conditional edge is a pure predicate: it routes to the
EmailComposer node iff `selected_influencers` is present and non-empty, and
to the terminal marker otherwise; moreover, with empty `influencer_data`,
running the marketing graph's segment from the PlatformAnalyzer through the
Filter (for any oracle behaviour and any prior `product_tags`) ends with
`selected_influencers = []` and the branch routing to the terminal marker,
so the EmailComposer node is never invoked. -/
theorem c8_conditional_edge (st : MarketingWorkFlowState) :
    ((should_generate_emails st = "generate_emails_node" ↔
        ∃ r rs, st.selected_influencers = some (r :: rs)) ∧
      (should_generate_emails st = "generate_emails_node" ∨
        should_generate_emails st = ENDMark)) ∧
    (∀ (pO : PlatformOracle) (prO : ProfileOracle) (mO : MatcherOracle)
      (st2 : MarketingWorkFlowState), st2.influencer_data = some [] →
      (runMarketingFromPlatform pO prO mO st2).toOption.map
          (fun s => (s.selected_influencers, should_generate_emails s)) =
        some (some [], ENDMark)) := by
  constructor
  · constructor
    · constructor
      · intro hgen
        cases hsel : st.selected_influencers with
        | none =>
          simp only [should_generate_emails, hsel] at hgen
          exact absurd hgen (by decide)
        | some l =>
          cases l with
          | nil =>
            simp only [should_generate_emails, hsel] at hgen
            exact absurd hgen (by decide)
          | cons r rs => exact ⟨r, rs, rfl⟩
      · rintro ⟨r, rs, h⟩
        simp only [should_generate_emails, h]
    · cases hsel : st.selected_influencers with
      | none => right; simp only [should_generate_emails, hsel, ENDMark]
      | some l =>
        cases l with
        | nil => right; simp only [should_generate_emails, hsel, ENDMark]
        | cons r rs => left; simp only [should_generate_emails, hsel]
  · intro pO prO mO st2 h
    cases hpt : st2.product_tags with
    | none =>
      simp [runMarketingFromPlatform, analyze_influencers_platforms_node, h,
        applyPlatform, generate_influencer_profiles_node, applyProfile,
        match_influencers_node, hpt, applyMatch, filter_matches_node,
        applyFilter, should_generate_emails]
      exact ⟨_, rfl, rfl, rfl⟩
    | some t =>
      simp [runMarketingFromPlatform, analyze_influencers_platforms_node, h,
        applyPlatform, generate_influencer_profiles_node, applyProfile,
        match_influencers_node, hpt, applyMatch, filter_matches_node,
        applyFilter, should_generate_emails]
      exact ⟨_, rfl, rfl, rfl⟩

/-- C8 witness: the predicate on concrete states, and the full empty-data
pipeline on a concrete state with tags present. -/
theorem c8_conditional_edge_witness :
    ((should_generate_emails (mkFilterState []) = "generate_emails_node" ↔
        ∃ r rs, (mkFilterState []).selected_influencers = some (r :: rs)) ∧
      (should_generate_emails (mkFilterState []) = "generate_emails_node" ∨
        should_generate_emails (mkFilterState []) = ENDMark)) ∧
    (runMarketingFromPlatform pOracleOk prOracleOk mOracleEmptyList
        stEmptyData).toOption.map
        (fun s => (s.selected_influencers, should_generate_emails s)) =
      some (some [], ENDMark) :=
  ⟨(c8_conditional_edge (mkFilterState [])).1,
    (c8_conditional_edge (mkFilterState [])).2 pOracleOk prOracleOk
      mOracleEmptyList stEmptyData rfl⟩

/-- Characterization of the matcher's per-item validation loop: valid items
are kept in order, each invalid item contributes exactly one error. -/
lemma matchItems_foldl (items : List RawMatchItem) :
    ∀ (res : List MatchResult) (errs : List String),
    items.foldl matchItemStep (res, errs) =
      (res ++ items.filterMap validMatchItem, errs ++ items.filterMap matchItemErr) := by
  induction items with
  | nil => intro res errs; simp
  | cons it t ih =>
    intro res errs
    rw [List.foldl_cons]
    cases h : validMatchItem it with
    | some m =>
      have hs : matchItemStep (res, errs) it = (res ++ [m], errs) := by
        simp [matchItemStep, h]
      rw [hs, ih]
      simp [List.filterMap_cons, matchItemErr, h]
    | none =>
      have hs : matchItemStep (res, errs) it = (res, errs ++ [matchItemErrMsg it]) := by
        simp [matchItemStep, h]
      rw [hs, ih]
      simp [List.filterMap_cons, matchItemErr, h]

/-- C6 counterexample: when the matcher's response IS a list but an empty
one, the code still treats the call as whole-call failure and appends the
"did not return a valid list" error — although the per-item account the
claim gives for list responses yields no error (no malformed items). -/
theorem c6_empty_list_counterexample :
    match_influencers_node mOracleEmptyList stMatcher =
      .ok (⟨[], ["Matcher did not return a valid list."]⟩, 1) ∧
    List.filterMap matchItemErr [] = ([] : List String) ∧
    List.filterMap validMatchItem [] = ([] : List MatchResult) := by
  refine ⟨by decide, rfl, rfl⟩

/-- C6 (amended): past its preconditions, the Matcher makes exactly one
batched completion call; if the response raises, is not a list, or is an
EMPTY list (falsy in the source's guard), the whole call is treated as
failed — empty `match_results` and exactly one error, no partial salvage;
if the response is a non-empty list, each item lacking any of the four
required fields is dropped with exactly one error citing the malformed
item, while valid items are kept in order. -/
theorem c6_matcher_response_validation (oracle : MatcherOracle)
    (st : MarketingWorkFlowState) (tags : ProductTags)
    (pm : List (String × InfluencerProfile)) (pi : List (String × String))
    (idata : List InfluencerEntry)
    (htags : st.product_tags = some tags)
    (hpm : st.influencer_profiles = some pm) (hne : pm ≠ [])
    (hpi : st.product_info = some pi)
    (hid : st.influencer_data = some idata) :
    (∀ items, items ≠ [] →
      oracle pi tags (matcherCandidates idata pm) = .ok (.jlist items) →
      match_influencers_node oracle st =
        .ok (⟨items.filterMap validMatchItem,
          st.error_messages ++ items.filterMap matchItemErr⟩, 1)) ∧
    (oracle pi tags (matcherCandidates idata pm) = .ok (.jlist []) ∨
      oracle pi tags (matcherCandidates idata pm) = .ok .other →
      match_influencers_node oracle st =
        .ok (⟨[], st.error_messages ++ ["Matcher did not return a valid list."]⟩, 1)) ∧
    (∀ e, oracle pi tags (matcherCandidates idata pm) = .error e →
      match_influencers_node oracle st =
        .ok (⟨[], st.error_messages ++ [s!"Matcher error: {e}"]⟩, 1)) := by
  obtain ⟨p0, pr, rfl⟩ : ∃ p0 pr, pm = p0 :: pr := by
    cases pm with
    | nil => exact absurd rfl hne
    | cons p0 pr => exact ⟨p0, pr, rfl⟩
  have hcand : matcherCandidates idata (p0 :: pr) =
      (p0.2, p0.1, nameFromData idata p0.1) ::
        pr.map (fun p => (p.2, p.1, nameFromData idata p.1)) := by
    simp [matcherCandidates]
  refine ⟨?_, ?_, ?_⟩
  · intro items hitems horacle
    obtain ⟨i0, it, rfl⟩ : ∃ i0 it, items = i0 :: it := by
      cases items with
      | nil => exact absurd rfl hitems
      | cons i0 it => exact ⟨i0, it, rfl⟩
    rw [hcand] at horacle
    simp only [match_influencers_node, htags, hpm, hpi, hid, hcand, horacle]
    rw [matchItems_foldl]
    simp
  · intro horacle
    rcases horacle with h | h <;> rw [hcand] at h <;>
      simp only [match_influencers_node, htags, hpm, hpi, hid, hcand, h]
  · intro e h
    rw [hcand] at h
    simp only [match_influencers_node, htags, hpm, hpi, hid, hcand, h]

/-- C6 witness: a response list with one valid and one invalid item — the
valid item is kept, the invalid one contributes exactly one error citing
it; the whole call is not aborted. -/
theorem c6_matcher_response_validation_witness :
    match_influencers_node mOracleItems stMatcher =
      .ok (⟨[itGood, itNoScore].filterMap validMatchItem,
        stMatcher.error_messages ++ [itGood, itNoScore].filterMap matchItemErr⟩, 1) ∧
    match_influencers_node mOracleItems stMatcher =
      .ok (⟨[⟨"p1", "Pia", "88%", "on brand"⟩],
        ["Matcher returned an item with invalid format: " ++ matchItemRepr itNoScore]⟩, 1) :=
  ⟨(c6_matcher_response_validation mOracleItems stMatcher sampleTags
        [("p1", sampleProfile)] [("name", "Widget")] [entP1]
        rfl rfl (by decide) rfl rfl).1
      [itGood, itNoScore] (by decide) rfl,
    by decide⟩

/-- Characterization of the platform fan-out's inner loop over one
influencer's platforms: empty-content platforms contribute nothing and are
not called; each called platform contributes its analysis on success or
exactly one scoped error on failure. -/
lemma platformInner_foldl (oracle : PlatformOracle) (name : String)
    (ps : List (String × List PlatformContentData)) :
    ∀ (m : List (String × PlatformAnalysisResult)) (errs : List String)
      (calls : List PlatformCall),
    ps.foldl (platformInner oracle name) (m, errs, calls) =
      (ps.foldl (fun m2 p =>
          if p.2 = [] then m2
          else
            match oracle name p.1 p.2 with
            | .ok r => pyInsert m2 p.1 r
            | .error _ => m2) m,
        errs ++ ps.filterMap (fun p =>
          if p.2 = [] then none
          else
            match oracle name p.1 p.2 with
            | .ok _ => none
            | .error err => some (platformErrMsg name p.1 err)),
        calls ++ (ps.filter (fun p => decide (p.2 ≠ []))).map (fun p => (name, p.1, p.2))) := by
  induction ps with
  | nil => intro m errs calls; simp
  | cons p t ih =>
    intro m errs calls
    rw [List.foldl_cons]
    by_cases hp : p.2 = []
    · have hs : platformInner oracle name (m, errs, calls) p = (m, errs, calls) := by
        simp [platformInner, hp]
      rw [hs, ih]
      simp [hp, List.foldl_cons, List.filterMap_cons, List.filter_cons]
    · cases ho : oracle name p.1 p.2 with
      | ok r =>
        have hs : platformInner oracle name (m, errs, calls) p =
            (pyInsert m p.1 r, errs, calls ++ [(name, p.1, p.2)]) := by
          simp [platformInner, hp, ho]
        rw [hs, ih]
        simp [hp, ho, List.foldl_cons, List.filterMap_cons, List.filter_cons]
      | error e =>
        have hs : platformInner oracle name (m, errs, calls) p =
            (m, errs ++ [platformErrMsg name p.1 e], calls ++ [(name, p.1, p.2)]) := by
          simp [platformInner, hp, ho]
        rw [hs, ih]
        simp [hp, ho, List.foldl_cons, List.filterMap_cons, List.filter_cons]

/-- Characterization of the platform fan-out's outer loop: the result map
is built per influencer from its isolated sub-map; errors and calls are the
concatenations of each influencer's isolated contributions. -/
lemma platformOuter_foldl (oracle : PlatformOracle) (es : List InfluencerEntry) :
    ∀ (R : List (String × List (String × PlatformAnalysisResult)))
      (errs : List String) (calls : List PlatformCall),
    es.foldl (platformOuter oracle) (R, errs, calls) =
      (es.foldl (fun R2 e => pyInsert R2 e.idD (platformSubmap oracle e)) R,
        errs ++ es.flatMap (platformErrorsOf oracle),
        calls ++ es.flatMap platformCallsOf) := by
  induction es with
  | nil => intro R errs calls; simp
  | cons e t ih =>
    intro R errs calls
    rw [List.foldl_cons]
    have hin : e.platforms.foldl (platformInner oracle e.nameD) ([], errs, calls) =
        (platformSubmap oracle e, errs ++ platformErrorsOf oracle e,
          calls ++ platformCallsOf e) := by
      rw [platformInner_foldl]
      rfl
    have hs : platformOuter oracle (R, errs, calls) e =
        (pyInsert R e.idD (platformSubmap oracle e),
          errs ++ platformErrorsOf oracle e, calls ++ platformCallsOf e) := by
      simp only [platformOuter, hin]
    rw [hs, ih]
    simp [List.flatMap_cons]

/-- C4: for every influencer list, the PlatformAnalyzer's result, error log
and completion calls are exactly the concatenation of each influencer's
isolated contribution: `platformSubmap` keeps every successful platform of
that influencer (a failure omits only that platform), `platformErrorsOf`
appends exactly one error scoped to each failing (influencer, platform)
pair, and `platformCallsOf` calls exactly the platforms with non-empty
content (empty platforms: no call, no error, by the `if p.2 = []` guards).
No failure aborts the remaining platforms or influencers. -/
theorem c4_platform_fanout_isolation (oracle : PlatformOracle)
    (st : MarketingWorkFlowState) (entries : List InfluencerEntry)
    (h : st.influencer_data = some entries) :
    analyze_influencers_platforms_node oracle st =
      .ok (⟨entries.foldl
            (fun R e => pyInsert R e.idD (platformSubmap oracle e)) [],
          st.error_messages ++ entries.flatMap (platformErrorsOf oracle)⟩,
        entries.flatMap platformCallsOf) := by
  simp only [analyze_influencers_platforms_node, h]
  rw [platformOuter_foldl]
  simp

/-- C4 witness: two influencers; `Nia` has one platform with content (whose
call is engineered to fail) and one empty platform, `Omar` one platform
with content.  The result contains Omar's analysis (and Nia's empty
sub-map), errors grow by exactly one entry scoped to (Nia, youtube), and
the empty platform is never called. -/
theorem c4_platform_fanout_isolation_witness :
    analyze_influencers_platforms_node pOracleFailNia
        { emptyMW with influencer_data := some [entN1, entN2] } =
      .ok (⟨[entN1, entN2].foldl
            (fun R e => pyInsert R e.idD (platformSubmap pOracleFailNia e)) [],
          { emptyMW with influencer_data := some [entN1, entN2] }.error_messages ++
            [entN1, entN2].flatMap (platformErrorsOf pOracleFailNia)⟩,
        [entN1, entN2].flatMap platformCallsOf) ∧
    analyze_influencers_platforms_node pOracleFailNia
        { emptyMW with influencer_data := some [entN1, entN2] } =
      .ok (⟨[("n1", []), ("n2", [("instagram", sampleAnalysis "instagram")])],
          ["Platform analysis error for Nia - youtube: boom"]⟩,
        [("Nia", "youtube", [sampleContent]), ("Omar", "instagram", [sampleContent])]) :=
  ⟨c4_platform_fanout_isolation pOracleFailNia
      { emptyMW with influencer_data := some [entN1, entN2] } [entN1, entN2] rfl,
    by decide⟩

lemma pyKeys_map_replace {α : Type} (m : List (String × α)) (k : String) (v : α) :
    pyKeys (m.map (fun p => if p.1 = k then (k, v) else p)) = pyKeys m := by
  induction m with
  | nil => rfl
  | cons p t ih =>
    by_cases h : p.1 = k
    · simp [pyKeys, h] at ih ⊢
      exact ih
    · simp [pyKeys, h] at ih ⊢
      exact ih

lemma any_key_iff {α : Type} (m : List (String × α)) (k : String) :
    (m.any (fun p => p.1 = k)) = true ↔ k ∈ pyKeys m := by
  simp [pyKeys, List.any_eq_true]

lemma pyKeys_pyInsert {α : Type} (m : List (String × α)) (k : String) (v : α) :
    pyKeys (pyInsert m k v) =
      if k ∈ pyKeys m then pyKeys m else pyKeys m ++ [k] := by
  unfold pyInsert
  by_cases h : m.any (fun p => p.1 = k)
  · rw [if_pos h, if_pos ((any_key_iff m k).mp h), pyKeys_map_replace]
  · rw [if_neg h, if_neg (fun hk => h ((any_key_iff m k).mpr hk))]
    simp [pyKeys]

lemma pyGet_isSome {α : Type} (m : List (String × α)) (k : String) :
    (pyGet m k).isSome = true ↔ k ∈ pyKeys m := by
  induction m with
  | nil => simp [pyGet, pyKeys]
  | cons p t ih =>
    by_cases h : p.1 = k
    · rw [pyGet, List.find?_cons_of_pos _ (by simp [h])]
      simp [pyKeys, h]
    · rw [pyGet, List.find?_cons_of_neg _ (by simp [h])]
      rw [pyGet] at ih
      simp only [pyKeys, List.map_cons, List.mem_cons] at ih ⊢
      rw [ih]
      constructor
      · exact Or.inr
      · rintro (hc | hc)
        · exact absurd hc.symm h
        · exact hc

lemma mem_dedup_foldl (l : List String) :
    ∀ (acc : List String) (k : String),
    k ∈ l.foldl (fun a x => if x ∈ a then a else a ++ [x]) acc ↔
      k ∈ acc ∨ k ∈ l := by
  induction l with
  | nil => intro acc k; simp
  | cons x t ih =>
    intro acc k
    rw [List.foldl_cons]
    by_cases hx : x ∈ acc
    · rw [if_pos hx, ih]
      simp only [List.mem_cons]
      constructor
      · rintro (h | h)
        · exact Or.inl h
        · exact Or.inr (Or.inr h)
      · rintro (h | h | h)
        · exact Or.inl h
        · exact Or.inl (h ▸ hx)
        · exact Or.inr h
    · rw [if_neg hx, ih]
      simp only [List.mem_append, List.mem_singleton, List.mem_cons]
      tauto

lemma pyKeys_foldl_insert (oracle : PlatformOracle) (es : List InfluencerEntry) :
    ∀ R, pyKeys (es.foldl (fun R2 e => pyInsert R2 e.idD (platformSubmap oracle e)) R) =
      (es.map InfluencerEntry.idD).foldl
        (fun a x => if x ∈ a then a else a ++ [x]) (pyKeys R) := by
  induction es with
  | nil => intro R; simp
  | cons e t ih =>
    intro R
    rw [List.foldl_cons, List.map_cons, List.foldl_cons, ih, pyKeys_pyInsert]

/-- C10 counterexample: two influencer entries share the id `"a"`; the
returned mapping has a single key for the two entries (the second entry's
sub-map overwrites the first), so it does not contain exactly one key per
influencer entry. -/
theorem c10_duplicate_id_counterexample :
    analyze_influencers_platforms_node pOracleOk
        { emptyMW with influencer_data := some [entDupA1, entDupA2] } =
      .ok (⟨[("a", [("youtube", sampleAnalysis "youtube")])], []⟩,
        [("Ann", "youtube", [sampleContent])]) ∧
    ([entDupA1, entDupA2].length = 2 ∧
      (pyKeys [("a", [("youtube", sampleAnalysis "youtube")])]).length = 1) := by
  refine ⟨by decide, by decide, by decide⟩

/-- C10 (amended): after the PlatformAnalyzer runs, the returned
`platform_analysis` contains exactly one key per DISTINCT influencer id of
`influencer_data` (in first-appearance order; entries sharing an id share
one key, the later entry's sub-map overwriting the earlier), and every
entry's id is present as a key — an influencer for which zero platforms
were successfully analyzed is mapped to an empty sub-map rather than being
omitted. -/
theorem c10_platform_map_one_key_per_id (oracle : PlatformOracle)
    (st : MarketingWorkFlowState) (entries : List InfluencerEntry)
    (h : st.influencer_data = some entries) :
    ∃ upd calls,
      analyze_influencers_platforms_node oracle st = .ok (upd, calls) ∧
      pyKeys upd.platform_analysis = dedupKeys (entries.map InfluencerEntry.idD) ∧
      ∀ e ∈ entries, ∃ sub, pyGet upd.platform_analysis e.idD = some sub := by
  refine ⟨⟨entries.foldl (fun R e => pyInsert R e.idD (platformSubmap oracle e)) [],
      st.error_messages ++ entries.flatMap (platformErrorsOf oracle)⟩,
    entries.flatMap platformCallsOf, ?_, ?_, ?_⟩
  · simp only [analyze_influencers_platforms_node, h]
    rw [platformOuter_foldl]
    simp
  · rw [pyKeys_foldl_insert]
    rfl
  · intro e he
    have hk : e.idD ∈ pyKeys (entries.foldl
        (fun R e => pyInsert R e.idD (platformSubmap oracle e)) []) := by
      rw [pyKeys_foldl_insert]
      exact (mem_dedup_foldl _ _ _).mpr (Or.inr (List.mem_map_of_mem _ he))
    exact Option.isSome_iff_exists.mp ((pyGet_isSome _ _).mpr hk)

/-- C10 witness: the duplicate-free case — entry `n1` has zero successful
platforms under an all-failing oracle yet is present, mapped to an empty
sub-map. -/
theorem c10_platform_map_one_key_per_id_witness :
    (∃ upd calls,
      analyze_influencers_platforms_node (fun _ _ _ => .error "down")
          { emptyMW with influencer_data := some [entN1, entN2] } =
        .ok (upd, calls) ∧
      pyKeys upd.platform_analysis =
        dedupKeys ([entN1, entN2].map InfluencerEntry.idD) ∧
      ∀ e ∈ [entN1, entN2], ∃ sub, pyGet upd.platform_analysis e.idD = some sub) ∧
    dedupKeys ([entN1, entN2].map InfluencerEntry.idD) = ["n1", "n2"] ∧
    analyze_influencers_platforms_node (fun _ _ _ => .error "down")
        { emptyMW with influencer_data := some [entN1, entN2] } =
      .ok (⟨[("n1", []), ("n2", [])],
          ["Platform analysis error for Nia - youtube: down",
            "Platform analysis error for Omar - instagram: down"]⟩,
        [("Nia", "youtube", [sampleContent]), ("Omar", "instagram", [sampleContent])]) :=
  ⟨c10_platform_map_one_key_per_id (fun _ _ _ => .error "down")
      { emptyMW with influencer_data := some [entN1, entN2] } [entN1, entN2] rfl,
    by decide, by decide⟩

/-- Characterization of the email loop: each selected influencer is
processed independently — the emails are the per-item successes in order,
the appended errors the concatenation of per-item errors. -/
lemma emailStep_foldl (oracle : EmailOracle) (pi : List (String × String))
    (tags : Option ProductTags) (pm : List (String × InfluencerProfile))
    (sel : List MatchResult) :
    ∀ (ems : List GeneratedEmail) (errs : List String),
    sel.foldl (emailStep oracle pi tags pm) (ems, errs) =
      (ems ++ sel.filterMap (emailItemResult oracle pi tags pm),
        errs ++ sel.flatMap (emailItemErrs oracle pi tags pm)) := by
  induction sel with
  | nil => intro ems errs; simp
  | cons m t ih =>
    intro ems errs
    rw [List.foldl_cons]
    have hs : emailStep oracle pi tags pm (ems, errs) m =
        (ems ++ (emailItemResult oracle pi tags pm m).toList,
          errs ++ emailItemErrs oracle pi tags pm m) := rfl
    rw [hs, ih]
    cases h : emailItemResult oracle pi tags pm m <;>
      simp [List.filterMap_cons, List.flatMap_cons, h]

/-- C9: for every state with present selected list, product info and
profiles map, the EmailComposer returns exactly the per-influencer
successes and appends exactly the per-influencer errors, independently per
selected influencer; a selected influencer whose id has no profile entry
contributes no email and exactly one error naming them
("Profile missing for selected influencer <name>."), while every other
selected influencer is still processed. -/
theorem c9_email_missing_profile_isolated (oracle : EmailOracle)
    (st : MarketingWorkFlowState) (sel : List MatchResult)
    (pi : List (String × String)) (pm : List (String × InfluencerProfile))
    (hsel : st.selected_influencers = some sel)
    (hpi : st.product_info = some pi)
    (hpm : st.influencer_profiles = some pm) :
    generate_emails_node oracle st =
      .ok ⟨sel.filterMap (emailItemResult oracle pi st.product_tags pm),
        st.error_messages ++ sel.flatMap (emailItemErrs oracle pi st.product_tags pm)⟩ ∧
    ∀ m : MatchResult, pyGet pm m.influencerId = none →
      emailItemResult oracle pi st.product_tags pm m = none ∧
      emailItemErrs oracle pi st.product_tags pm m =
        [profileMissingMsg m.influencerName] := by
  constructor
  · cases sel with
    | nil => simp [generate_emails_node, hsel]
    | cons m t =>
      simp only [generate_emails_node, hsel, hpi, hpm]
      rw [emailStep_foldl]
      simp
  · intro m hm
    exact ⟨by simp [emailItemResult, hm], by simp [emailItemErrs, hm]⟩

/-- C9 witness: the spec's scenario — two selected influencers, a profile
for only the first: `generated_emails` has length 1 and `error_messages`
gains exactly one profile-missing entry naming the other (Bob). -/
theorem c9_email_missing_profile_isolated_witness :
    (generate_emails_node eOracleOk stEmails =
      .ok ⟨[resA, resB].filterMap
          (emailItemResult eOracleOk [("name", "Widget")] stEmails.product_tags
            [("a", sampleProfile)]),
        stEmails.error_messages ++ [resA, resB].flatMap
          (emailItemErrs eOracleOk [("name", "Widget")] stEmails.product_tags
            [("a", sampleProfile)])⟩) ∧
    generate_emails_node eOracleOk stEmails =
      .ok ⟨[⟨"a", "Alice", "Hello", "Shall we collaborate?"⟩],
        ["Profile missing for selected influencer Bob."]⟩ :=
  ⟨(c9_email_missing_profile_isolated eOracleOk stEmails [resA, resB]
      [("name", "Widget")] [("a", sampleProfile)] rfl rfl rfl).1,
    by decide⟩

/-! ### Panel-discussion lemmas -/

lemma chooseFlag_player (d : PanelData) (n : ℕ) :
    (chooseFlag d n).player = d.player := by
  unfold chooseFlag
  split <;> rfl

lemma chooseFlag_chatList (d : PanelData) (n : ℕ) :
    (chooseFlag d n).chatList = d.chatList := by
  unfold chooseFlag
  split <;> rfl

lemma chooseFlag_isEnd (d : PanelData) (n : ℕ) (h : d.isEnd = false) :
    (chooseFlag d n).isEnd = decide (n > 5) := by
  by_cases hn : n > 5 <;> simp [chooseFlag, hn, h]

/-- The random pick is always a member of `role_List`, and the first-match
scan of `choose` recovers exactly its index. -/
lemma findIdx_role (i : Fin 4) :
    role_List.findIdx? (fun r => r = roleOf i) = some i.val := by
  fin_cases i <;> decide

lemma panelEdgeMap_play (i : Fin 4) :
    panelEdgeMap ("play" ++ toString (i.val + 1)) = some (.play i) := by
  fin_cases i <;> decide

/-- When the flag is not yet set and the player is a role member, `choose`
routes to that player's node (setting the flag first when the message count
exceeds 5). -/
lemma choose_route_play (d : PanelData) (n : ℕ) (i : Fin 4)
    (hp : d.player = some (roleOf i)) (hend : d.isEnd = false) :
    choose d n = .ok (chooseFlag d n, "play" ++ toString (i.val + 1)) := by
  have h1 : (chooseFlag d n).player = some (roleOf i) := by
    rw [chooseFlag_player, hp]
  simp only [choose, hend, Bool.false_eq_true, if_false, h1]
  rw [findIdx_role]

/-- One executor step from the host with the flag unset: the host appends
one message and the routing predicate still selects a player; the flag
comes out set exactly when the new message count exceeds 5. -/
lemma panelStep_host_run (hO : PanelData → String)
    (pO : Fin 4 → ChatList × String → String) (r : ℕ → Fin 4) (s : PanelExec)
    (hc : s.cursor = .host) (hend : s.data.isEnd = false)
    (hready : (∃ t, s.data.chatList = .text t) ∨
      ((∃ l, s.data.chatList = .lines l) ∧ s.messages ≠ [] ∧
        ∃ p, s.data.player = some p)) :
    ∃ s2 : PanelExec,
      panelStep hO pO r s = .ok s2 ∧
      s2.cursor = .play (r s.hostVisits) ∧
      s2.messages.length = s.messages.length + 1 ∧
      s2.hostVisits = s.hostVisits + 1 ∧
      s2.data.isEnd = decide (s.messages.length + 1 > 5) ∧
      (∃ p, s2.data.player = some p) ∧
      ((∃ t, s.data.chatList = .text t) → ∃ t, s2.data.chatList = .text t) ∧
      ((∃ l, s.data.chatList = .lines l) → ∃ l, s2.data.chatList = .lines l) := by
  obtain ⟨ms, d, cur, v⟩ := s
  simp only at hc hend hready ⊢
  subst hc
  rcases hready with ⟨t, hcl⟩ | ⟨⟨l, hcl⟩, hms, p, hp⟩
  · set d1 : PanelData := { d with player := some (roleOf (r v)) } with hd1
    have hmsg : msgParser d ms (r v) = .ok d1 := by
      rw [hd1]
      simp [msgParser, hcl, hend]
    have hch : choose d1 (ms ++ [hO d1]).length =
        .ok (chooseFlag d1 (ms ++ [hO d1]).length,
          "play" ++ toString ((r v).val + 1)) :=
      choose_route_play _ _ (r v) rfl hend
    refine ⟨⟨ms ++ [hO d1], chooseFlag d1 (ms ++ [hO d1]).length, .play (r v),
      v + 1⟩, ?_, rfl, by simp, rfl, ?_, ?_, ?_, ?_⟩
    · simp only [panelStep, hmsg, hch, panelEdgeMap_play]
    · have h2 : (ms ++ [hO d1]).length = ms.length + 1 := by simp
      rw [h2]
      exact chooseFlag_isEnd d1 (ms.length + 1) hend
    · exact ⟨_, by rw [chooseFlag_player]⟩
    · intro _
      exact ⟨t, by rw [chooseFlag_chatList]; exact hcl⟩
    · rintro ⟨l0, hl0⟩
      rw [hcl] at hl0
      cases hl0
  · obtain ⟨m, hm⟩ : ∃ m, ms.getLast? = some m := by
      cases hlast : ms.getLast? with
      | some m2 => exact ⟨m2, rfl⟩
      | none => exact absurd (List.getLast?_eq_none_iff.mp hlast) hms
    set d1 : PanelData := { d with chatList := ChatList.lines (l ++ [s!"嘉宾({p}):{m}"]), player := some (roleOf (r v)) } with hd1
    have hmsg : msgParser d ms (r v) = .ok d1 := by
      rw [hd1]
      simp [msgParser, hcl, hm, hp, hend]
    have hch : choose d1 (ms ++ [hO d1]).length =
        .ok (chooseFlag d1 (ms ++ [hO d1]).length,
          "play" ++ toString ((r v).val + 1)) :=
      choose_route_play _ _ (r v) rfl hend
    refine ⟨⟨ms ++ [hO d1], chooseFlag d1 (ms ++ [hO d1]).length, .play (r v),
      v + 1⟩, ?_, rfl, by simp, rfl, ?_, ?_, ?_, ?_⟩
    · simp only [panelStep, hmsg, hch, panelEdgeMap_play]
    · have h2 : (ms ++ [hO d1]).length = ms.length + 1 := by simp
      rw [h2]
      exact chooseFlag_isEnd d1 (ms.length + 1) hend
    · exact ⟨_, by rw [chooseFlag_player]⟩
    · rintro ⟨t0, ht0⟩
      rw [hcl] at ht0
      cases ht0
    · intro _
      exact ⟨_, by rw [chooseFlag_chatList]⟩

/-- One executor step from a player node: the player appends one message,
control returns to the host unconditionally, the flag and player fields are
untouched, and the chat list becomes/stays a list of lines. -/
lemma panelStep_play_run (hO : PanelData → String)
    (pO : Fin 4 → ChatList × String → String) (r : ℕ → Fin 4) (s : PanelExec)
    (i : Fin 4) (hc : s.cursor = .play i) (hm : s.messages ≠ []) :
    ∃ s2 : PanelExec,
      panelStep hO pO r s = .ok s2 ∧
      s2.cursor = .host ∧
      s2.messages.length = s.messages.length + 1 ∧
      s2.hostVisits = s.hostVisits ∧
      s2.data.isEnd = s.data.isEnd ∧
      s2.data.player = s.data.player ∧
      ∃ l, s2.data.chatList = .lines l := by
  obtain ⟨ms, d, cur, v⟩ := s
  simp only at hc hm ⊢
  subst hc
  cases hcl : d.chatList with
  | text t =>
    obtain ⟨m0, hm0⟩ : ∃ m0, ms.head? = some m0 := by
      cases ms with
      | nil => exact absurd rfl hm
      | cons a t2 => exact ⟨a, rfl⟩
    have hpm : playMsgParser d ms =
        .ok { d with chatList := .lines ["主持人（喵喵）" ++ m0] } := by
      simp only [playMsgParser, hcl, hm0]
    exact ⟨⟨ms ++ [pO i (ChatList.lines ["主持人（喵喵）" ++ m0], d.topic)],
        { d with chatList := .lines ["主持人（喵喵）" ++ m0] }, .host, v⟩,
      by simp only [panelStep, hpm], rfl, by simp, rfl, rfl, rfl, ⟨_, rfl⟩⟩
  | lines l =>
    obtain ⟨m, hlast⟩ : ∃ m, ms.getLast? = some m := by
      cases hl2 : ms.getLast? with
      | some m => exact ⟨m, rfl⟩
      | none => exact absurd (List.getLast?_eq_none_iff.mp hl2) hm
    have hpm : playMsgParser d ms =
        .ok { d with chatList := .lines (l ++ ["主持人（喵喵）" ++ m]) } := by
      simp only [playMsgParser, hcl, hlast]
    exact ⟨⟨ms ++ [pO i (ChatList.lines (l ++ ["主持人（喵喵）" ++ m]), d.topic)],
        { d with chatList := .lines (l ++ ["主持人（喵喵）" ++ m]) }, .host, v⟩,
      by simp only [panelStep, hpm], rfl, by simp, rfl, rfl, rfl, ⟨_, rfl⟩⟩

/-- One executor step from the host once the flag is set: the host appends
one more message (the extra host turn) and the routing predicate returns
the terminal marker. -/
lemma panelStep_host_end_run (hO : PanelData → String)
    (pO : Fin 4 → ChatList × String → String) (r : ℕ → Fin 4) (s : PanelExec)
    (hc : s.cursor = .host) (hend : s.data.isEnd = true)
    (hcl : ∃ l, s.data.chatList = .lines l) (hm : s.messages ≠ [])
    (hp : ∃ p, s.data.player = some p) :
    ∃ s2 : PanelExec,
      panelStep hO pO r s = .ok s2 ∧
      s2.cursor = .stop ∧
      s2.messages.length = s.messages.length + 1 := by
  obtain ⟨ms, d, cur, v⟩ := s
  simp only at hc hend hcl hm hp ⊢
  subst hc
  obtain ⟨l, hcl⟩ := hcl
  obtain ⟨p, hp⟩ := hp
  obtain ⟨m, hlast⟩ : ∃ m, ms.getLast? = some m := by
    cases hl2 : ms.getLast? with
    | some m2 => exact ⟨m2, rfl⟩
    | none => exact absurd (List.getLast?_eq_none_iff.mp hl2) hm
  set d1 : PanelData := { d with chatList := ChatList.lines (l ++ [s!"嘉宾({p}):{m}"]), player := some "节目结束，不需要下一位嘉宾发言" } with hd1
  have hmsg : msgParser d ms (r v) = .ok d1 := by
    rw [hd1]
    simp [msgParser, hcl, hlast, hp, hend]
  have hch : choose d1 (ms ++ [hO d1]).length = .ok (d1, "end") := by
    simp [choose, hend]
  refine ⟨⟨ms ++ [hO d1], d1, .stop, v + 1⟩, ?_, rfl, by simp⟩
  simp only [panelStep, hmsg, hch]
  rfl

lemma panelEnded_ok (s : PanelExec) : panelEnded (.ok s) = some s.data.isEnd := rfl

lemma panelCursor_ok (s : PanelExec) : panelCursor (.ok s) = some s.cursor := rfl

lemma panelMsgCount_ok (s : PanelExec) :
    panelMsgCount (.ok s) = some s.messages.length := rfl

lemma panelRun_succ (hO : PanelData → String)
    (pO : Fin 4 → ChatList × String → String) (r : ℕ → Fin 4) (rds : String)
    (n : ℕ) (s : PanelExec) (h : panelRun hO pO r rds n = .ok s) :
    panelRun hO pO r rds (n + 1) = panelStep hO pO r s := by
  simp only [panelRun, h]

lemma ne_nil_of_length_eq_succ {α : Type} (l : List α) (n : ℕ)
    (h : l.length = n + 1) : l ≠ [] := by
  intro hnil
  rw [hnil] at h
  exact absurd h (by simp)

/-- C2: in the panel-discussion graph, for every host/player completion
behaviour and every random-pick sequence: the ended flag is unset through
the first 6 executor steps and becomes set exactly at step 7 — the 4th host
visit, the first whose post-visit message count (7) exceeds the ceiling 5 —
yet on that very visit the routing predicate still routes to a player
(`.play (r 3)`, the 4th random pick); after that player's turn (step 8,
cursor back at the host), the next run of the predicate returns the
terminal marker, so one extra host turn executes after crossing the ceiling
(the message count still grows from 8 to 9 at step 9) before the graph
stops. -/
theorem c2_panel_termination_off_by_one (hO : PanelData → String)
    (pO : Fin 4 → ChatList × String → String) (r : ℕ → Fin 4) (rds : String) :
    (∀ k, k ≤ 6 → panelEnded (panelRun hO pO r rds k) = some false) ∧
    panelEnded (panelRun hO pO r rds 7) = some true ∧
    panelMsgCount (panelRun hO pO r rds 7) = some 7 ∧
    panelCursor (panelRun hO pO r rds 7) = some (.play (r 3)) ∧
    panelCursor (panelRun hO pO r rds 8) = some .host ∧
    panelEnded (panelRun hO pO r rds 8) = some true ∧
    panelMsgCount (panelRun hO pO r rds 9) = some 9 ∧
    panelCursor (panelRun hO pO r rds 9) = some .stop := by
  -- step 1: first host visit (chat list still the initial string)
  obtain ⟨s1, e1, c1, m1, v1, end1, p1, tx1, -⟩ :=
    panelStep_host_run hO pO r (panelInit rds) rfl rfl (Or.inl ⟨_, rfl⟩)
  simp only [panelInit] at c1 m1 v1 end1
  simp only [List.length_nil] at m1 end1
  have end1f : s1.data.isEnd = false := by simp [end1]
  have h1 : panelRun hO pO r rds 1 = .ok s1 := by
    rw [panelRun_succ hO pO r rds 0 _ rfl]
    exact e1
  obtain ⟨t1, tx1⟩ := tx1 ⟨_, rfl⟩
  -- step 2: first player turn (chat list becomes a list)
  obtain ⟨s2, e2, c2, m2, v2, end2, pl2, ln2⟩ :=
    panelStep_play_run hO pO r s1 (r 0) c1 (ne_nil_of_length_eq_succ _ 0 m1)
  have h2 : panelRun hO pO r rds 2 = .ok s2 := by
    rw [panelRun_succ hO pO r rds 1 _ h1]
    exact e2
  rw [m1] at m2
  rw [v1] at v2
  rw [end1f] at end2
  have pl2s : ∃ p, s2.data.player = some p := by rw [pl2]; exact p1
  -- step 3: second host visit
  obtain ⟨s3, e3, c3, m3, v3, end3, p3, -, ln3⟩ :=
    panelStep_host_run hO pO r s2 c2 end2 (Or.inr ⟨ln2, ne_nil_of_length_eq_succ _ 1 m2, pl2s⟩)
  have h3 : panelRun hO pO r rds 3 = .ok s3 := by
    rw [panelRun_succ hO pO r rds 2 _ h2]
    exact e3
  rw [v2] at c3 v3
  rw [m2] at m3 end3
  have end3f : s3.data.isEnd = false := by simp [end3]
  -- step 4: second player turn
  obtain ⟨s4, e4, c4, m4, v4, end4, pl4, ln4⟩ :=
    panelStep_play_run hO pO r s3 (r 1) c3 (ne_nil_of_length_eq_succ _ 2 m3)
  have h4 : panelRun hO pO r rds 4 = .ok s4 := by
    rw [panelRun_succ hO pO r rds 3 _ h3]
    exact e4
  rw [m3] at m4
  rw [v3] at v4
  rw [end3f] at end4
  have pl4s : ∃ p, s4.data.player = some p := by rw [pl4]; exact p3
  -- step 5: third host visit
  obtain ⟨s5, e5, c5, m5, v5, end5, p5, -, ln5⟩ :=
    panelStep_host_run hO pO r s4 c4 end4 (Or.inr ⟨ln4, ne_nil_of_length_eq_succ _ 3 m4, pl4s⟩)
  have h5 : panelRun hO pO r rds 5 = .ok s5 := by
    rw [panelRun_succ hO pO r rds 4 _ h4]
    exact e5
  rw [v4] at c5 v5
  rw [m4] at m5 end5
  have end5f : s5.data.isEnd = false := by simp [end5]
  -- step 6: third player turn
  obtain ⟨s6, e6, c6, m6, v6, end6, pl6, ln6⟩ :=
    panelStep_play_run hO pO r s5 (r 2) c5 (ne_nil_of_length_eq_succ _ 4 m5)
  have h6 : panelRun hO pO r rds 6 = .ok s6 := by
    rw [panelRun_succ hO pO r rds 5 _ h5]
    exact e6
  rw [m5] at m6
  rw [v5] at v6
  rw [end5f] at end6
  have pl6s : ∃ p, s6.data.player = some p := by rw [pl6]; exact p5
  -- step 7: fourth host visit — message count reaches 7 > 5, flag is set,
  -- but the predicate still routes to a player
  obtain ⟨s7, e7, c7, m7, v7, end7, p7, -, ln7⟩ :=
    panelStep_host_run hO pO r s6 c6 end6 (Or.inr ⟨ln6, ne_nil_of_length_eq_succ _ 5 m6, pl6s⟩)
  have h7 : panelRun hO pO r rds 7 = .ok s7 := by
    rw [panelRun_succ hO pO r rds 6 _ h6]
    exact e7
  rw [v6] at c7 v7
  rw [m6] at m7 end7
  have end7t : s7.data.isEnd = true := by simp [end7]
  -- step 8: fourth player turn (flag stays set)
  obtain ⟨s8, e8, c8, m8, v8, end8, pl8, ln8⟩ :=
    panelStep_play_run hO pO r s7 (r 3) c7 (ne_nil_of_length_eq_succ _ 6 m7)
  have h8 : panelRun hO pO r rds 8 = .ok s8 := by
    rw [panelRun_succ hO pO r rds 7 _ h7]
    exact e8
  rw [m7] at m8
  rw [end7t] at end8
  have pl8s : ∃ p, s8.data.player = some p := by rw [pl8]; exact p7
  -- step 9: the extra host turn after the flag is set — terminal
  obtain ⟨s9, e9, c9, m9⟩ :=
    panelStep_host_end_run hO pO r s8 c8 end8 ln8 (ne_nil_of_length_eq_succ _ 7 m8) pl8s
  have h9 : panelRun hO pO r rds 9 = .ok s9 := by
    rw [panelRun_succ hO pO r rds 8 _ h8]
    exact e9
  rw [m8] at m9
  refine ⟨?_, ?_, ?_, ?_, ?_, ?_, ?_, ?_⟩
  · intro k hk
    interval_cases k
    · rfl
    · rw [h1, panelEnded_ok, end1f]
    · rw [h2, panelEnded_ok, end2]
    · rw [h3, panelEnded_ok, end3f]
    · rw [h4, panelEnded_ok, end4]
    · rw [h5, panelEnded_ok, end5f]
    · rw [h6, panelEnded_ok, end6]
  · rw [h7, panelEnded_ok, end7t]
  · rw [h7, panelMsgCount_ok, m7]
  · rw [h7, panelCursor_ok, c7]
  · rw [h8, panelCursor_ok, c8]
  · rw [h8, panelEnded_ok, end8]
  · rw [h9, panelMsgCount_ok, m9]
  · rw [h9, panelCursor_ok, c9]

end Crossboarder
